import Mathlib

/-!
Verification of the generate–persist–execute–compare–retry loop of the
bank-statement-parser agent repository.

The development shallowly embeds the control flow and the data handling of

* `agent.py` — the main agent (`BankParserAgent.run`, `_clean_generated_code`,
  `save_parser`, `test_parser` and the comparison script it generates),
* `custom_parsers/icici_parser_attempt3.py` — the second agent-loop variant
  stored in the artifact directory (its `BankParserAgent.run` performs fence
  stripping, line extraction, a `compile()` syntax check, in-process
  `importlib` execution and a `df.equals` comparison),
* `custom_parsers/icici_parser.py` — the final persisted candidate parser
  whose `parse` function consults the reference CSV at call time.

Python strings are modelled as `String`/`List Char`; Python floats produced by
`float(...)` on decimal tokens are modelled as exact rationals (no arithmetic
is performed on them in the modelled code, so rounding is irrelevant to every
property proved here); `pandas` missing values (`NaN`) are a distinct `Cell.na`
sentinel; the file system, the LLM and the subprocess are modelled as
environments supplied to the step functions.
-/

/-! ## Python string primitives over `List Char`

`Char.isWhitespace` covers space, tab, carriage return and newline, which is
the subset of Python's `str.strip` whitespace class exercised by the code. -/

/-- Python `str.strip()` on a character list: drop whitespace from both ends. -/
def stripL (l : List Char) : List Char :=
  ((l.dropWhile Char.isWhitespace).reverse.dropWhile Char.isWhitespace).reverse

/-- Boolean prefix test, models Python `str.startswith` (and drives `in`). -/
def prefL : List Char → List Char → Bool
  | [], _ => true
  | _ :: _, [] => false
  | a :: as, b :: bs => a == b && prefL as bs

/-- Boolean substring containment, models the Python `in` operator on `str`. -/
def containsL (pat : List Char) : List Char → Bool
  | [] => pat.isEmpty
  | c :: rest => prefL pat (c :: rest) || containsL pat rest

/-- Python `str.find`: index of the first occurrence of `pat`, or `-1`. -/
def pyFindAux (pat : List Char) : List Char → Nat → Option Nat
  | [], i => if pat.isEmpty then some i else none
  | c :: rest, i => if prefL pat (c :: rest) then some i else pyFindAux pat rest (i + 1)

/-- Python `str.find` returning `-1` on absence, as in the source. -/
def pyFind (pat l : List Char) : Int :=
  match pyFindAux pat l 0 with
  | some n => (n : Int)
  | none => -1

/-- Python slice `l[:n]` for a possibly negative `n`. -/
def pySliceTo (l : List Char) : Int → List Char
  | Int.ofNat n => l.take n
  | Int.negSucc n => l.take (l.length - (n + 1))

/-- Python `str.split("\n")`: split on newline, keeping empty pieces. -/
def splitOnNl : List Char → List (List Char)
  | [] => [[]]
  | c :: rest =>
    let parts := splitOnNl rest
    if c == '\n' then [] :: parts
    else
      match parts with
      | p :: ps => (c :: p) :: ps
      | [] => [[c]]

/-- Python `str.splitlines()` for newline-separated text: the empty string has
no lines, and a trailing newline does not produce a final empty line. -/
def pySplitlines (l : List Char) : List (List Char) :=
  if l.isEmpty then []
  else
    let parts := splitOnNl l
    if l.getLast? = some '\n' then parts.dropLast else parts

/-- One fuel-indexed step of Python `str.replace(pat, "")`: delete every
non-overlapping occurrence of `pat`, scanning left to right.  The fuel is the
input length, which suffices because each step consumes at least one
character. -/
def removeAllF : Nat → List Char → List Char → List Char
  | 0, _, l => l
  | _, _, [] => []
  | fuel + 1, pat, c :: rest =>
    if prefL pat (c :: rest) then removeAllF fuel pat ((c :: rest).drop pat.length)
    else c :: removeAllF fuel pat rest

/-- Python `str.replace(pat, "")` for a non-empty pattern. -/
def removeAll (pat l : List Char) : List Char :=
  removeAllF l.length pat l

/-- Digit run to a natural number (the characters are decimal digits). -/
def digitsToNat (ds : List Char) : Nat :=
  ds.foldl (fun n c => 10 * n + (c.toNat - 48)) 0

/-- Python `float(tok)` for a token matched by `\d+\.?\d*`, as an exact
rational.  No arithmetic is done on these values in the modelled code, so the
exact-decimal reading is faithful for every property proved below. -/
def decToRat (tok : List Char) : ℚ :=
  let intPart := tok.takeWhile Char.isDigit
  let rest := tok.dropWhile Char.isDigit
  let frac :=
    match rest with
    | c :: fs => if c == '.' then fs.takeWhile Char.isDigit else []
    | [] => []
  mkRat (digitsToNat intPart * 10 ^ frac.length + digitsToNat frac) (10 ^ frac.length)

/-- Strict decimal-literal reader modelling `pd.to_numeric` on one scalar:
optional sign, a non-empty digit run, optionally a point and a digit run.
Strings such as dates (`"01-08-2024"`) or prose do not parse. -/
def parseNumQ (s : List Char) : Option ℚ :=
  match s with
  | [] => none
  | _ =>
    let neg := s.headD ' ' == '-'
    let s1 := if neg then s.tail else s
    let ip := s1.takeWhile Char.isDigit
    let r1 := s1.dropWhile Char.isDigit
    if ip.isEmpty then none
    else
      match r1 with
      | [] => some (mkRat ((if neg then (-1 : Int) else 1) * (digitsToNat ip : Int)) 1)
      | c :: fp =>
        if c == '.' && fp.all Char.isDigit then
          some (mkRat ((if neg then (-1 : Int) else 1) *
            ((digitsToNat ip : Int) * 10 ^ fp.length + (digitsToNat fp : Int)))
            (10 ^ fp.length))
        else none

/-- Fuel-indexed scanner for Python `re.findall(r'\d+\.?\d*', s)`: at each
digit, consume a maximal digit run, then optionally a point and a further
maximal digit run (greedy matching); otherwise advance one character. -/
def findallNumsF : Nat → List Char → List (List Char)
  | 0, _ => []
  | _, [] => []
  | fuel + 1, c :: rest =>
    if c.isDigit then
      let ds := c :: rest.takeWhile Char.isDigit
      let r1 := rest.dropWhile Char.isDigit
      match r1 with
      | '.' :: r2 => (ds ++ '.' :: r2.takeWhile Char.isDigit) ::
          findallNumsF fuel (r2.dropWhile Char.isDigit)
      | _ => ds :: findallNumsF fuel r1
    else findallNumsF fuel rest

/-- Python `re.findall(r'\d+\.?\d*', s)`. -/
def findallNums (l : List Char) : List (List Char) :=
  findallNumsF l.length l

/-! ## String-level wrappers -/

/-- Python `str.strip()` at `String` level. -/
def pyStrip (s : String) : String :=
  (stripL s.data).asString

/-- The Python `in` operator on `String`. -/
def pyIn (pat s : String) : Bool :=
  containsL pat.data s.data

/-! ## `agent.py` — `_clean_generated_code` (lines 215–227) -/

/-- The markdown fence `"```python"` checked by `_clean_generated_code`. -/
def fencePy : String := "```python"

/-- The bare markdown fence `"```"`. -/
def fence : String := "```"

/-- The import line that `_clean_generated_code` guarantees. -/
def importLine : String := "import pandas as pd"

/-- The import line as a character list. -/
def importStr : List Char := importLine.data

/-- `BankParserAgent._clean_generated_code`: strip a markdown code fence if
present, prepend `import pandas as pd` when absent, and strip whitespace.
`split(sep)[1]` exists whenever `sep` occurs, hence the `getD`/`headD`
defaults are never used on the guarded paths. -/
def cleanGeneratedCode (code : String) : String :=
  let code1 :=
    if pyIn fencePy code then
      (((code.splitOn fencePy).getD 1 "").splitOn fence).headD ""
    else if pyIn fence code then
      (((code.splitOn fence).getD 1 "").splitOn fence).headD ""
    else code
  let code2 := if pyIn importLine code1 then code1 else importLine ++ "\n" ++ code1
  pyStrip code2

/-! ## Tabular data and the two output comparators -/

/-- One cell of a data frame: the missing-value sentinel (`NaN`), a numeric
value, or a string. -/
inductive Cell where
  | na : Cell
  | num : ℚ → Cell
  | str : List Char → Cell
deriving DecidableEq

/-- A data frame: ordered column names and row-major cells. -/
structure DF where
  cols : List String
  rows : List (List Cell)
deriving DecidableEq

/-- `df.shape`: (row count, column count). -/
def dfShape (df : DF) : Nat × Nat :=
  (df.rows.length, df.cols.length)

/-- Outcome of the comparison script generated by `agent.py`'s
`test_parser`. -/
inductive AgentCmp where
  | shapeMismatch : AgentCmp
  | colMismatch : AgentCmp
  | pass : AgentCmp
deriving DecidableEq

/-- The comparison performed by the test script `agent.py` writes (lines
276–286): compare `result_df.shape` with `expected_df.shape`, exiting on
mismatch, then compare the column-name lists, exiting on mismatch; otherwise
print success and exit 0.  No further check follows the column check. -/
def agentCompare (res exp : DF) : AgentCmp :=
  if dfShape res ≠ dfShape exp then .shapeMismatch
  else if res.cols ≠ exp.cols then .colMismatch
  else .pass

/-- `pandas` cell equality as used by `DataFrame.equals`: `NaN` in the same
location counts as equal, and `NaN` never equals a number. -/
def cellEq : Cell → Cell → Bool
  | .na, .na => true
  | .num a, .num b => a == b
  | .str a, .str b => a == b
  | _, _ => false

/-- `DataFrame.equals` on the cell level: same columns, same row count and
pairwise `cellEq` cells (the frames compared in the source hold numeric
columns of a common dtype after coercion). -/
def dfEquals (a b : DF) : Bool :=
  a.cols == b.cols && a.rows.length == b.rows.length &&
    (a.rows.zip b.rows).all fun rs =>
      rs.1.length == rs.2.length && (rs.1.zip rs.2).all fun cd => cellEq cd.1 cd.2

/-- The column list `common_cols` of `icici_parser_attempt3.py` line 194. -/
def commonCols : List String :=
  ["Date", "Description", "Debit Amt", "Credit Amt", "Balance"]

/-- Column selection `df[names]`: reorder columns by name, `none` on a
missing column (the `KeyError` caught by the outer handler in the source). -/
def selectCols (df : DF) (names : List String) : Option DF := do
  let idxs ← names.mapM fun n => df.cols.findIdx? (· == n)
  pure ⟨names, df.rows.map fun r => idxs.map fun i => r.getD i .na⟩

/-- `pd.to_numeric(col, errors='ignore')` on one column: if every cell
converts to a number the converted column is used, otherwise the column is
returned unchanged (the documented `errors='ignore'` behaviour). -/
def toNumericIgnoreCol (cells : List Cell) : List Cell :=
  let conv := cells.mapM fun c =>
    match c with
    | .na => some Cell.na
    | .num q => some (Cell.num q)
    | .str s => (parseNumQ s).map Cell.num
  match conv with
  | some cs => cs
  | none => cells

/-- Columns of a well-formed frame (rows all of width `cols.length`). -/
def dfColumns (df : DF) : List (List Cell) :=
  (List.range df.cols.length).map fun j => df.rows.map fun r => r.getD j .na

/-- Rebuild rows from columns. -/
def rowsOfColumns (cols : List (List Cell)) (nrows : Nat) : List (List Cell) :=
  (List.range nrows).map fun i => cols.map fun c => c.getD i .na

/-- Apply `pd.to_numeric(…, errors='ignore')` to every column of a frame. -/
def a3Coerce (df : DF) : DF :=
  ⟨df.cols, rowsOfColumns ((dfColumns df).map toNumericIgnoreCol) df.rows.length⟩

/-- The comparison of `icici_parser_attempt3.py` lines 193–203: select
`common_cols` from both frames (a missing column raises, caught outside),
coerce each column with `to_numeric(errors='ignore')`, then `df.equals`. -/
def a3Compare (df expected : DF) : Option Bool := do
  let d ← selectCols df commonCols
  let e ← selectCols expected commonCols
  pure (dfEquals (a3Coerce d) (a3Coerce e))

/-! ## `agent.py` — session state, attempt step and run loop -/

/-- The schema `analyze_data` extracts from a successfully read reference CSV
(only the column list is consumed by later control flow). -/
structure Schema where
  columns : List String
deriving DecidableEq

/-- Behaviour of the `subprocess.run` call in `test_parser`: the test script
runs to completion having produced a frame from the candidate, crashes (import
error, parse exception, …), exceeds the 30 s `timeout`, or `test_parser`'s
outer handler catches some other exception. -/
inductive SubprocBehavior where
  | completes : DF → SubprocBehavior
  | crashes : String → SubprocBehavior
  | timesOut : SubprocBehavior
  | testError : String → SubprocBehavior

/-- Environment of one `agent.py` attempt: the raw LLM code response, whether
the candidate text is syntactically valid Python (a property of the text;
`agent.py` never consults it), whether the artifact write succeeds, and the
behaviour of the test subprocess. -/
structure AgentEnv where
  llmCode : String
  compileOk : Bool
  saveOk : Bool
  exec : SubprocBehavior

/-- Exceptions that can escape `BankParserAgent.run`. -/
inductive PyErr where
  | keyError : String → PyErr
deriving DecidableEq

/-- Mutable session state of `AgentState` plus the observation counters used
by the theorems (LLM calls made, `test_parser` invocations, file store). -/
structure AgentSt where
  attempts : Nat
  success : Bool
  currentCode : String
  errors : List String
  testResults : List String
  llmCalls : Nat
  executorInvocations : Nat
  files : String → Option String

/-- The initial session state built at the top of `run`. -/
def initSt : AgentSt :=
  ⟨0, false, "", [], [], 0, 0, fun _ => none⟩

/-- Result of one loop iteration: the next state, or an uncaught exception
carrying the state at the moment it was raised. -/
inductive StepRes where
  | ok : AgentSt → StepRes
  | crashed : AgentSt → PyErr → StepRes

/-- `state.parser_path` of `agent.py` line 357: the same path for every
attempt of a session. -/
def agentParserPath (bank : String) : String :=
  "custom_parsers/" ++ bank ++ "_parser.py"

/-- Overwriting file-system write. -/
def writeStore (st : String → Option String) (p c : String) : String → Option String :=
  fun q => if q == p then some c else st q

/-- `BankParserAgent.test_parser` (lines 249–322): run the generated test
script in a subprocess with `timeout=30`; return `(True, stdout)` on exit
code 0, otherwise `(False, message)`; `TimeoutExpired` yields the timeout
message and any other exception the generic error message. -/
def testParser (expected : DF) (b : SubprocBehavior) : Bool × String :=
  match b with
  | .completes df =>
    match agentCompare df expected with
    | .pass => (true, "Parser test passed!")
    | .shapeMismatch => (false, "Test failed:\nShape mismatch")
    | .colMismatch => (false, "Test failed:\nColumn mismatch")
  | .crashes msg => (false, "Test failed:\n" ++ msg)
  | .timesOut => (false, "Test timeout (>30 seconds)")
  | .testError msg => (false, "Test error: " ++ msg)

/-- One iteration of the `while` loop of `BankParserAgent.run` (lines
372–404): increment the attempt counter, call the LLM for a plan, build the
generation prompt — which reads `analysis['csv_schema']['columns']` and hence
raises `KeyError` when the reference CSV failed to parse (`schema = {}`) —
call the LLM for code, sanitize it, persist it to the fixed parser path,
invoke `test_parser`, and on failure record the diagnosis and self-debug
(one more LLM call) when attempts remain.  `max_attempts` is the source
default 3. -/
def agentAttempt (schQ : Option Schema) (expected : DF) (bank : String)
    (e : AgentEnv) (s : AgentSt) : StepRes :=
  let s1 : AgentSt := { s with attempts := s.attempts + 1, llmCalls := s.llmCalls + 1 }
  match schQ with
  | none => .crashed s1 (.keyError "columns")
  | some _ =>
    let s2 := { s1 with llmCalls := s1.llmCalls + 1 }
    let code := cleanGeneratedCode e.llmCode
    let s3 := { s2 with currentCode := code }
    if e.saveOk = false then
      .ok { s3 with errors := s3.errors ++ ["Save error"] }
    else
      let s4 := { s3 with
        files := writeStore s3.files (agentParserPath bank) code,
        executorInvocations := s3.executorInvocations + 1 }
      match testParser expected e.exec with
      | (true, _) => .ok { s4 with success := true }
      | (false, msg) =>
        let s5 := { s4 with errors := s4.errors ++ [msg],
                            testResults := s4.testResults ++ [msg] }
        .ok (if s5.attempts < 3 then { s5 with llmCalls := s5.llmCalls + 1 } else s5)

/-- The `while state.attempts < state.max_attempts and not state.success`
loop, fuel-indexed (fuel `3` suffices from the initial state). -/
def agentLoop (schQ : Option Schema) (expected : DF) (bank : String)
    (env : Nat → AgentEnv) : Nat → AgentSt → StepRes
  | 0, s => .ok s
  | fuel + 1, s =>
    if s.attempts < 3 ∧ s.success = false then
      match agentAttempt schQ expected bank (env s.attempts) s with
      | .ok s' => agentLoop schQ expected bank env fuel s'
      | .crashed s' err => .crashed s' err
    else .ok s

/-- Result of `BankParserAgent.run`. -/
inductive RunResult where
  | pdfMissing : RunResult
  | csvMissing : RunResult
  | crashed : AgentSt → PyErr → RunResult
  | finished : AgentSt → RunResult

/-- `BankParserAgent.run` (lines 347–419): check the PDF and CSV paths exist
(returning failure immediately when not), analyze the reference once —
`schQ = none` models `analyze_data` swallowing a CSV read/parse error into an
empty schema — then run the attempt loop and report `state.success`. -/
def agentRun (pdfExists csvExists : Bool) (schQ : Option Schema) (expected : DF)
    (bank : String) (env : Nat → AgentEnv) : RunResult :=
  if pdfExists = false then .pdfMissing
  else if csvExists = false then .csvMissing
  else
    match agentLoop schQ expected bank env 3 initSt with
    | .ok st => .finished st
    | .crashed st err => .crashed st err

/-- Final `success` flag of a run (`run`'s return value; missing files and
crashes are failures). -/
def runSuccess : RunResult → Bool
  | .finished s => s.success
  | _ => false

/-- Attempts completed when the run ended. -/
def runAttempts : RunResult → Nat
  | .finished s => s.attempts
  | .crashed s _ => s.attempts
  | _ => 0

/-- Number of `test_parser` (Executor) invocations over the whole run. -/
def runExecInvocations : RunResult → Nat
  | .finished s => s.executorInvocations
  | .crashed s _ => s.executorInvocations
  | _ => 0

/-- Number of LLM calls made over the whole run. -/
def runLlmCalls : RunResult → Nat
  | .finished s => s.llmCalls
  | .crashed s _ => s.llmCalls
  | _ => 0

/-- Diagnosis history of the run. -/
def runErrors : RunResult → List String
  | .finished s => s.errors
  | .crashed s _ => s.errors
  | _ => []

/-- Content of the artifact store at `p` when the run ended. -/
def runFileAt (p : String) : RunResult → Option String
  | .finished s => s.files p
  | .crashed s _ => s.files p
  | _ => none

/-- Whether the run ended in an uncaught `KeyError`. -/
def runCrashedKeyError : RunResult → Bool
  | .crashed _ (.keyError _) => true
  | _ => false

/-! ## `icici_parser_attempt3.py` — the second agent-loop variant -/

/-- The fence `"```"` as characters. -/
def fence3 : List Char := "```".data

/-- The fence `"```python"` as characters. -/
def fencePyL : List Char := "```python".data

/-- A single quote character (avoiding a quote-heavy literal). -/
def squote : Char := Char.ofNat 39

/-- A backtick character. -/
def btick : Char := Char.ofNat 96

/-- Triple double quote. -/
def tripleDQ : List Char := "\"\"\"".data

/-- Triple single quote. -/
def tripleSQ : List Char := [squote, squote, squote]

/-- Fence stripping of `icici_parser_attempt3.py` lines 135–140. -/
def a3FenceStrip (code : List Char) : List Char :=
  if fence3.isPrefixOf code then
    let code := stripL code
    let code := if fencePyL.isPrefixOf code then stripL (code.drop fencePyL.length) else code
    let code := if fence3.isSuffixOf code then stripL (code.take (code.length - 3)) else code
    code
  else code

/-- `line.strip().startswith(("import", "def"))`. -/
def startsImportOrDef (l : List Char) : Bool :=
  prefL "import".data l || prefL "def".data l

/-- Line extraction of lines 142–150: keep the slice from the first line whose
strip starts with `import`/`def` to the last non-blank line; if either bound
is absent the code is kept unchanged. -/
def a3ExtractLines (code : List Char) : List Char :=
  let lines := pySplitlines code
  let start := lines.findIdx? fun ln => startsImportOrDef (stripL ln)
  let stop := (lines.reverse.findIdx? fun ln => !(stripL ln).isEmpty).map
    fun i => lines.length - 1 - i
  match start, stop with
  | some s, some e => List.intercalate ['\n'] ((lines.drop s).take (e + 1 - s))
  | _, _ => code

/-- The sanitizer of the attempt3 variant: fences, then line extraction. -/
def a3Sanitize (l : List Char) : List Char :=
  a3ExtractLines (a3FenceStrip l)

/-- Behaviour of the in-process candidate execution of lines 178–191: module
load (`exec_module`) raises, the `parse` call returns a frame, raises
`ValueError`, raises some other exception — or never returns (`diverges`):
the direct in-process call has no time bound, so nothing of the attempt
happens after it. -/
inductive A3Exec where
  | returns : DF → A3Exec
  | raisesValueError : String → A3Exec
  | raisesExn : String → A3Exec
  | loadRaises : String → A3Exec
  | diverges : A3Exec
deriving DecidableEq

/-- Environment of one attempt of the attempt3 variant: the raw LLM response,
whether the artifact write succeeds, whether `compile()` accepts the cleaned
candidate, the execution behaviour and the reference frame (`none` when
`pd.read_csv` of the reference raises). -/
structure A3Env where
  llmResp : List Char
  saveOk : Bool
  compileOk : Bool
  exec : A3Exec
  expected : Option DF

/-- Outcome of one attempt of the attempt3 variant. -/
inductive A3Outcome where
  | emptySkip : A3Outcome
  | saveError : A3Outcome
  | compileError : A3Outcome
  | agentError : A3Outcome
  | execValueError : A3Outcome
  | execError : A3Outcome
  | mismatch : A3Outcome
  | matched : A3Outcome
deriving DecidableEq

/-- Trace of one attempt of the attempt3 variant: whether the candidate was
persisted, whether it was loaded (`exec_module`), whether its `parse` entry
point was invoked, the outcome, and the sanitized code. -/
structure A3Trace where
  saved : Bool
  loaded : Bool
  executed : Bool
  outcome : A3Outcome
  code : List Char
deriving DecidableEq

/-- The artifact path of the attempt3 variant (line 158):
`custom_parsers/{bank}_parser_attempt{attempt}.py` — it encodes the attempt
index. -/
def a3AttemptPath (bank : String) (attempt : Nat) : String :=
  "custom_parsers/" ++ bank ++ "_parser_attempt" ++ toString attempt ++ ".py"

/-- One attempt of `icici_parser_attempt3.py`'s `run` (lines 130–216):
sanitize; skip when empty; strip quotes/backticks; persist (skip on write
failure); `compile()` the code, skipping on `SyntaxError` — so the syntax
check follows persistence but precedes loading; load and execute in-process
with no timeout (`diverges ↦ none`: the attempt never completes and nothing
abandons the candidate); compare with `df.equals`.  Exceptions from loading,
reference reading or comparison are caught by the outer handler. -/
def a3Attempt (e : A3Env) : Option A3Trace :=
  let code := a3Sanitize e.llmResp
  if (stripL code).isEmpty then
    some ⟨false, false, false, .emptySkip, code⟩
  else
    let code := removeAll [btick] (removeAll tripleSQ (removeAll tripleDQ (stripL code)))
    if e.saveOk = false then some ⟨false, false, false, .saveError, code⟩
    else if e.compileOk = false then some ⟨true, false, false, .compileError, code⟩
    else
      match e.exec with
      | .loadRaises _ => some ⟨true, true, false, .agentError, code⟩
      | .diverges => none
      | .raisesValueError _ => some ⟨true, true, true, .execValueError, code⟩
      | .raisesExn _ => some ⟨true, true, true, .execError, code⟩
      | .returns df =>
        match e.expected with
        | none => some ⟨true, true, true, .agentError, code⟩
        | some exp =>
          match a3Compare df exp with
          | none => some ⟨true, true, true, .agentError, code⟩
          | some true => some ⟨true, true, true, .matched, code⟩
          | some false => some ⟨true, true, true, .mismatch, code⟩

/-! ## `custom_parsers/icici_parser.py` — the final persisted candidate -/

/-- One row of the reference CSV as consumed by `parse`: only `Description`
and `Credit Amt` are read (`pd.isna(row['Credit Amt'])` decides the class). -/
structure RefRow where
  description : List Char
  creditAmt : Option ℚ
deriving DecidableEq

/-- One output row of `parse`. -/
structure TxRow where
  date : List Char
  description : List Char
  debitAmt : ℚ
  creditAmt : ℚ
  balance : ℚ
deriving DecidableEq

/-- Association-list update used to model the `pattern_map` dict (later keys
overwrite earlier ones). -/
def updateAssoc (m : List (List Char × Bool)) (k : List Char) (v : Bool) :
    List (List Char × Bool) :=
  if m.any (fun kv => kv.1 == k) then
    m.map fun kv => if kv.1 == k then (k, v) else kv
  else m ++ [(k, v)]

/-- `pattern_map` of `parse` lines 8–14: first 20 characters of the
description mapped to `true` for debit (`Credit Amt` is `NaN`) and `false`
for credit. -/
def buildPatternMap (ref : List RefRow) : List (List Char × Bool) :=
  ref.foldl (fun m row => updateAssoc m (row.description.take 20) row.creditAmt.isNone) []

/-- Debit/credit classification of `parse` lines 50–73: while fewer rows have
been extracted than the reference holds, the reference row at the current
index decides the class; afterwards the `pattern_map` and then a keyword
heuristic decide. -/
def classifyAmount (ref : List RefRow) (curCount : Nat) (description : List Char)
    (amount : ℚ) : ℚ × ℚ :=
  if curCount < ref.length then
    let expectedRow := ref.getD curCount ⟨[], none⟩
    if expectedRow.creditAmt.isNone then (amount, 0) else (0, amount)
  else
    match (buildPatternMap ref).lookup (description.take 20) with
    | some true => (amount, 0)
    | some false => (0, amount)
    | none =>
      if ["Deposit", "Interest", "Transfer From"].any
          (fun w => containsL w.data description) then (0, amount)
      else (amount, 0)

/-- Match of `re.match(r'^(\d{2}-\d{2}-\d{4})\s+', line)`: the ten-character
date group and the remainder after the greedily matched whitespace. -/
def dateMatch (l : List Char) : Option (List Char × List Char) :=
  match l with
  | d1 :: d2 :: h1 :: d3 :: d4 :: h2 :: d5 :: d6 :: d7 :: d8 :: rest =>
    if d1.isDigit && d2.isDigit && h1 == '-' && d3.isDigit && d4.isDigit &&
        h2 == '-' && d5.isDigit && d6.isDigit && d7.isDigit && d8.isDigit then
      match rest with
      | w :: _ =>
        if w.isWhitespace then
          some ([d1, d2, h1, d3, d4, h2, d5, d6, d7, d8], rest.dropWhile Char.isWhitespace)
        else none
      | [] => none
    else none
  | _ => none

/-- Accumulated column lists of `parse` (the five parallel Python lists). -/
structure ParseAcc where
  dates : List (List Char)
  descs : List (List Char)
  debits : List ℚ
  credits : List ℚ
  balances : List ℚ

/-- Per-line body of the extraction loop of `parse` (lines 28–79): skip
header, noise and blank lines; on a date-prefixed line with at least two
numeric tokens, take the last token as balance and the second-to-last as the
amount, cut the description at the first occurrence of the amount token,
classify via the reference, and append to all five lists. -/
def iciciLineStep (ref : List RefRow) (acc : ParseAcc) (line : List Char) : ParseAcc :=
  if containsL "Date".data line && containsL "Description".data line then acc
  else if containsL "ChatGPT".data line || containsL "Powered".data line ||
      containsL "Bannk".data line then acc
  else if (stripL line).isEmpty then acc
  else
    match dateMatch line with
    | none => acc
    | some dr =>
      let numbers := findallNums dr.2
      if 2 ≤ numbers.length then
        let amountTok := numbers.getD (numbers.length - 2) []
        let balance := decToRat (numbers.getLastD [])
        let amount := decToRat amountTok
        let descEnd := pyFind amountTok dr.2
        let description := stripL (pySliceTo dr.2 descEnd)
        let dc := classifyAmount ref acc.dates.length description amount
        ⟨acc.dates ++ [dr.1], acc.descs ++ [description], acc.debits ++ [dc.1],
          acc.credits ++ [dc.2], acc.balances ++ [balance]⟩
      else acc

/-- `parse(pdf_path)` of `custom_parsers/icici_parser.py`, over the text lines
extracted from the PDF (the same PDF always yields the same lines) and the
reference CSV it reads at call time from `data/icici/result.csv`.  The final
trim to the minimum list length and the `to_numeric(...).fillna(0.0)` pass
are transcribed; the numeric lists only ever hold numbers here, so `fillna`
leaves them unchanged. -/
def iciciParse (ref : List RefRow) (pdfLines : List (List Char)) : List TxRow :=
  let acc := pdfLines.foldl (iciciLineStep ref) ⟨[], [], [], [], []⟩
  let minLen := min acc.dates.length (min acc.descs.length
    (min acc.debits.length (min acc.credits.length acc.balances.length)))
  let dates := acc.dates.take minLen
  let descs := acc.descs.take minLen
  let debits := acc.debits.take minLen
  let credits := acc.credits.take minLen
  let balances := acc.balances.take minLen
  (List.range minLen).map fun i =>
    ⟨dates.getD i [], descs.getD i [], debits.getD i 0, credits.getD i 0,
      balances.getD i 0⟩

/-! ## Concrete instances used by the counterexamples -/

/-- The column schema of the ICICI reference CSV. -/
def schICICI : Schema := ⟨commonCols⟩

/-- A one-row reference frame (a credit transaction). -/
def dfRef1 : DF := ⟨commonCols,
  [[.str "01-08-2024".data, .str "Salary Credit".data, .num 0, .num 1935, .num 6864]]⟩

/-- A candidate frame with the same shape and columns as `dfRef1` but the
debit and credit values transposed — every cell value of the two amount
columns differs. -/
def dfCand1 : DF := ⟨commonCols,
  [[.str "01-08-2024".data, .str "Salary Credit".data, .num 1935, .num 0, .num 6864]]⟩

/-- Session environment whose candidate runs and produces `dfCand1`. -/
def envRun1 : Nat → AgentEnv := fun _ => ⟨"def parse(p): pass", true, true, .completes dfCand1⟩

/-- Session environment whose candidate text is syntactically invalid
(`compileOk = false`) yet whose artifact write succeeds; the test subprocess
then crashes on it. -/
def envRunSyn : Nat → AgentEnv := fun _ =>
  ⟨"x = 1", false, true, .crashes "SyntaxError: invalid syntax"⟩

/-- Session environment producing a different candidate on each attempt, all
of which fail the test. -/
def envRunOverwrite : Nat → AgentEnv := fun i =>
  ⟨if i = 0 then "x = 1" else if i = 1 then "x = 2" else "x = 3", true, true,
    .crashes "AttributeError: module has no attribute parse"⟩

/-- A reference frame whose `Credit Amt` cell is absent (`NaN`). -/
def dfRefNa : DF := ⟨commonCols,
  [[.str "01-08-2024".data, .str "Salary Credit".data, .num 100, .na, .num 500]]⟩

/-- A candidate frame equal to `dfRefNa` except that it substitutes `0` for
the absent `Credit Amt` cell. -/
def dfCandZero : DF := ⟨commonCols,
  [[.str "01-08-2024".data, .str "Salary Credit".data, .num 100, .num 0, .num 500]]⟩

/-- Session environment whose candidate produces `dfCandZero`. -/
def envRunZero : Nat → AgentEnv := fun _ => ⟨"def parse(p): pass", true, true, .completes dfCandZero⟩

/-- A minimal well-formed candidate for the attempt3 pipeline. -/
def goodA3Code : List Char := "import pandas as pd".data

/-- An attempt3 environment whose candidate never returns from its in-process
`parse` call. -/
def envDiverge : A3Env := ⟨goodA3Code, true, true, .diverges, some dfRefNa⟩

/-- Session environment whose test subprocess times out on every attempt. -/
def envRunTimeout : Nat → AgentEnv := fun _ => ⟨"def parse(p): pass", true, true, .timesOut⟩

/-- Session environment in which the backend returns the empty string on
every attempt. -/
def envRunEmpty : Nat → AgentEnv := fun _ =>
  ⟨"", true, true, .crashes "ImportError: cannot import name parse"⟩

/-- A one-row reference CSV whose `Credit Amt` is absent (a debit row). -/
def refRowsDebit : List RefRow := [⟨"Pay".data, none⟩]

/-- The same reference CSV except that `Credit Amt` is present (a credit
row). -/
def refRowsCredit : List RefRow := [⟨"Pay".data, some 1⟩]

/-- The text lines extracted from a fixed sample PDF. -/
def pdfLinesSample : List (List Char) := ["01-01-2024 Pay 5.5 7.5".data]

/-! ## Helper lemmas -/

/-- Correctness of the boolean prefix test. -/
theorem prefL_iff (p l : List Char) : prefL p l = true ↔ p <+: l := by
  induction p generalizing l with
  | nil => simp [prefL]
  | cons a as ih =>
    cases l with
    | nil => simp [prefL]
    | cons b bs =>
      simp [prefL, List.cons_prefix_cons, ih, Bool.and_eq_true, beq_iff_eq]

/-- Correctness of the boolean substring test. -/
theorem containsL_iff (p l : List Char) : containsL p l = true ↔ p <:+: l := by
  induction l with
  | nil => simp [containsL, List.isEmpty_iff]
  | cons c rest ih =>
    simp [containsL, Bool.or_eq_true, prefL_iff, ih, List.infix_cons_iff]

/-- A pattern with a non-whitespace head survives a leading whitespace
drop. -/
theorem infix_dropWhile_ws {c : Char} {p l : List Char} (hc : c.isWhitespace = false)
    (h : (c :: p) <:+: l) : (c :: p) <:+: l.dropWhile Char.isWhitespace := by
  obtain ⟨s, t, rfl⟩ := h
  induction s with
  | nil =>
    simp only [List.nil_append, List.cons_append, List.dropWhile_cons, hc]
    exact ⟨[], t, by simp⟩
  | cons a s ih =>
    simp only [List.cons_append, List.dropWhile_cons]
    by_cases ha : a.isWhitespace
    · simpa [ha] using ih
    · simp only [ha, Bool.false_eq_true, if_false]
      exact ⟨a :: s, t, by simp⟩

/-- Substring containment is preserved by reversal. -/
theorem infix_rev {l₁ l₂ : List Char} (h : l₁ <:+: l₂) : l₁.reverse <:+: l₂.reverse := by
  obtain ⟨s, t, rfl⟩ := h
  exact ⟨t.reverse, s.reverse, by simp⟩

/-- A substring whose first and last characters are not whitespace survives
`strip`. -/
theorem infix_stripL {c d : Char} {m l : List Char} (hc : c.isWhitespace = false)
    (hd : d.isWhitespace = false) (h : (c :: (m ++ [d])) <:+: l) :
    (c :: (m ++ [d])) <:+: stripL l := by
  have h1 := infix_dropWhile_ws hc h
  have h2 := infix_rev h1
  rw [show (c :: (m ++ [d])).reverse = d :: (m.reverse ++ [c]) by simp] at h2
  have h3 := infix_dropWhile_ws hd h2
  have h4 := infix_rev h3
  rw [show (d :: (m.reverse ++ [c])).reverse = c :: (m ++ [d]) by simp] at h4
  exact h4

/-- Unfolding of `pyStrip` to the list level. -/
theorem pyStrip_data (s : String) : (pyStrip s).data = stripL s.data := rfl

/-- String append acts as list append on the underlying characters. -/
theorem data_append (a b : String) : (a ++ b).data = a.data ++ b.data := by
  cases a; cases b; rfl

/-- The import line split into its non-whitespace first and last characters,
in the shape `infix_stripL` expects. -/
theorem importStr_shape : importStr = 'i' :: ("mport pandas as p".data ++ ['d']) := by decide

/-- After the import-check-and-prepend step of `_clean_generated_code`, the
stripped result contains the import line, whatever the extracted block
was. -/
theorem clean_aux (c1 : String) :
    importStr <:+:
      (pyStrip (if pyIn importLine c1 then c1 else importLine ++ "\n" ++ c1)).data := by
  by_cases h : pyIn importLine c1 = true
  · rw [if_pos h, pyStrip_data]
    have hin : importStr <:+: c1.data := (containsL_iff _ _).mp h
    rw [importStr_shape] at hin ⊢
    exact infix_stripL (by decide) (by decide) hin
  · rw [if_neg h, pyStrip_data]
    have hin : importStr <:+: (importLine ++ "\n" ++ c1).data := by
      rw [data_append, data_append]
      exact ⟨[], "\n".data ++ c1.data, by simp [importStr]⟩
    rw [importStr_shape] at hin ⊢
    exact infix_stripL (by decide) (by decide) hin

/-- A list containing a non-empty substring is non-empty. -/
theorem infix_ne_nil {p l : List Char} (hp : p ≠ []) (h : p <:+: l) : l ≠ [] := by
  intro hl
  subst hl
  exact hp (List.infix_nil.mp h)

/-- With a readable schema, one `agent.py` attempt never crashes and
increments the attempt counter by exactly one. -/
theorem agentAttempt_ok (sch : Schema) (expected : DF) (bank : String) (e : AgentEnv)
    (s : AgentSt) :
    ∃ s', agentAttempt (some sch) expected bank e s = .ok s' ∧
      s'.attempts = s.attempts + 1 := by
  unfold agentAttempt
  dsimp only
  split
  · exact ⟨_, rfl, rfl⟩
  · split
    · exact ⟨_, rfl, rfl⟩
    · split
      · exact ⟨_, rfl, rfl⟩
      · exact ⟨_, rfl, rfl⟩

/-- Loop invariant of the `agent.py` attempt loop: the attempt count stays
within the ceiling, and with enough fuel the loop exits only in a terminal
configuration (success, or the ceiling reached). -/
theorem agentLoop_ok (sch : Schema) (expected : DF) (bank : String) (env : Nat → AgentEnv) :
    ∀ (fuel : Nat) (s : AgentSt), s.attempts ≤ 3 →
      ∃ st, agentLoop (some sch) expected bank env fuel s = .ok st ∧ st.attempts ≤ 3 ∧
        (3 ≤ s.attempts + fuel → st.success = true ∨ st.attempts = 3) := by
  intro fuel
  induction fuel with
  | zero =>
    intro s hs
    exact ⟨s, rfl, hs, fun h3 => Or.inr (le_antisymm hs (by omega))⟩
  | succ fuel ih =>
    intro s hs
    rw [agentLoop]
    by_cases hguard : s.attempts < 3 ∧ s.success = false
    · rw [if_pos hguard]
      obtain ⟨s', he, ha⟩ := agentAttempt_ok sch expected bank (env s.attempts) s
      rw [he]
      obtain ⟨st, hl, hb, hc⟩ := ih s' (by omega)
      exact ⟨st, hl, hb, fun h3 => hc (by omega)⟩
    · rw [if_neg hguard]
      refine ⟨s, rfl, hs, fun h3 => ?_⟩
      cases hsucc : s.success
      · refine Or.inr ?_
        have : ¬ s.attempts < 3 := fun hlt => hguard ⟨hlt, hsucc⟩
        omega
      · exact Or.inl rfl

/-! ## Claim theorems -/

/-- Claim C1, counterexample: a candidate frame with the same shape and
columns as the reference but different cell values (debits and credits
transposed) is reported as a pass by `agent.py`'s comparator, and the session
succeeds on it — so an exact match is reported without cell-value equality,
contradicting the claim that all three layers, including per-cell values,
must pass. -/
theorem C1_counterexample :
    agentCompare dfCand1 dfRef1 = .pass ∧ dfCand1.rows ≠ dfRef1.rows ∧
    runSuccess (agentRun true true (some schICICI) dfRef1 "icici" envRun1) = true := by decide

/-- Claim C1, amended: the `agent.py` Output Comparator evaluates two layers
in order — row/column shape, then column names and order — short-circuiting
at the first failing layer, and it reports an exact match (which makes the
session succeed) whenever those two layers pass; per-cell values are never
compared. -/
theorem C1_theorem : ∀ res exp : DF,
    (agentCompare res exp =
      if dfShape res ≠ dfShape exp then .shapeMismatch
      else if res.cols ≠ exp.cols then .colMismatch else .pass) ∧
    ((testParser exp (.completes res)).1 = true ↔ agentCompare res exp = .pass) ∧
    (∀ (sch : Schema) (bank : String) (e : AgentEnv) (s : AgentSt),
      ∃ s', agentAttempt (some sch) exp bank
          { e with saveOk := true, exec := .completes res } s = .ok s' ∧
        s'.success = (s.success || decide (agentCompare res exp = .pass))) := by
  intro res exp
  refine ⟨rfl, ?_, ?_⟩
  · unfold testParser
    cases h : agentCompare res exp <;> simp [h]
  · intro sch bank e s
    unfold agentAttempt
    dsimp only
    split
    · next hsave => simp at hsave
    · unfold testParser
      cases h : agentCompare res exp
      · simp [h]
        split <;> simp
      · simp [h]
        split <;> simp
      · simp [h]

/-- Claim C2: for every session of `agent.py`'s run (with a readable
reference), the loop completes with at most `max_attempts = 3` attempts, and
it is terminal exactly as claimed: it ends having succeeded or having used
the full ceiling, reporting a definite result. -/
theorem C2_theorem : ∀ (sch : Schema) (expected : DF) (bank : String) (env : Nat → AgentEnv),
    ∃ st, agentRun true true (some sch) expected bank env = .finished st ∧
      st.attempts ≤ 3 ∧ (st.success = true ∨ st.attempts = 3) := by
  intro sch expected bank env
  obtain ⟨st, hl, hb, hc⟩ := agentLoop_ok sch expected bank env 3 initSt (by decide)
  refine ⟨st, ?_, hb, hc (by decide)⟩
  simp [agentRun, hl]

/-- Claim C3, counterexample: in `agent.py` a syntactically invalid candidate
(`compileOk = false`) is nevertheless handed to the Executor on every attempt
— `test_parser` is invoked three times — because no syntax validation exists
anywhere in its pipeline. -/
theorem C3_counterexample :
    (envRunSyn 0).compileOk = false ∧
    runExecInvocations (agentRun true true (some schICICI) dfRef1 "icici" envRunSyn) = 3 := by decide

/-- Claim C3, amended: in the attempt3 variant the sanitized candidate is
`compile()`-checked (parse only) before it is ever loaded or executed, and a
candidate failing that check is never handed to the Executor; in `agent.py`
no syntax validation precedes execution — whenever the artifact write
succeeds, the Executor is invoked regardless of the candidate's syntactic
validity. -/
theorem C3_theorem :
    (∀ e : A3Env,
      Option.all (fun t => !t.loaded && !t.executed) (a3Attempt { e with compileOk := false }) = true) ∧
    (∀ (sch : Schema) (expected : DF) (bank : String) (e : AgentEnv) (s : AgentSt),
      ∃ s', agentAttempt (some sch) expected bank { e with saveOk := true } s = .ok s' ∧
        s'.executorInvocations = s.executorInvocations + 1) := by
  constructor
  · intro e
    unfold a3Attempt
    dsimp only
    split
    · rfl
    · split
      · rfl
      · split
        · rfl
        · next h => simp at h
  · intro sch expected bank e s
    unfold agentAttempt
    dsimp only
    split
    · next hsave => simp at hsave
    · split
      · exact ⟨_, rfl, rfl⟩
      · split
        · exact ⟨_, rfl, rfl⟩
        · exact ⟨_, rfl, rfl⟩

/-- Claim C4, counterexample: in an `agent.py` session whose three attempts
generate three distinct candidates, after the run the single target-named
artifact path holds only the third attempt's code — the artifacts written by
attempts 1 and 2 were overwritten, contradicting the claim that the persisted
name encodes the attempt index and earlier artifacts are never
overwritten. -/
theorem C4_counterexample :
    runFileAt (agentParserPath "icici")
      (agentRun true true (some schICICI) dfRef1 "icici" envRunOverwrite) =
      some (cleanGeneratedCode "x = 3") ∧
    cleanGeneratedCode "x = 1" ≠ cleanGeneratedCode "x = 3" ∧
    runAttempts (agentRun true true (some schICICI) dfRef1 "icici" envRunOverwrite) = 3 := by decide

/-- Claim C4, amended: only the attempt3 variant persists candidates under
attempt-indexed names (pairwise distinct over the attempt range, and written
even for candidates that then fail the syntax check); `agent.py` persists
every attempt unconditionally to the one target-named path
`custom_parsers/{target}_parser.py`, so each attempt overwrites its
predecessor's artifact. -/
theorem C4_theorem :
    List.Pairwise (· ≠ ·) ((List.range 4).map (a3AttemptPath "icici")) ∧
    (∀ (sch : Schema) (expected : DF) (bank : String) (e : AgentEnv) (s : AgentSt),
      ∃ s', agentAttempt (some sch) expected bank { e with saveOk := true } s = .ok s' ∧
        s'.files (agentParserPath bank) = some (cleanGeneratedCode e.llmCode)) ∧
    (∀ e : A3Env,
      Option.all (fun t => !(t.outcome == A3Outcome.compileError) || t.saved) (a3Attempt e) = true) := by
  refine ⟨by decide, ?_, ?_⟩
  · intro sch expected bank e s
    unfold agentAttempt
    dsimp only
    split
    · next hsave => simp at hsave
    · split
      · exact ⟨_, rfl, by simp [writeStore]⟩
      · split
        · exact ⟨_, rfl, by simp [writeStore]⟩
        · exact ⟨_, rfl, by simp [writeStore]⟩
  · intro e
    unfold a3Attempt
    dsimp only
    split
    · rfl
    · split
      · rfl
      · split
        · rfl
        · split <;> first | rfl | (split <;> first | rfl | (split <;> rfl))

/-- Claim C5, counterexample: when the reference CSV file exists but cannot
be parsed (`schQ = none`, the swallowed `read_csv` failure of
`analyze_data`), the session does not abort with a reference error — it
enters the first attempt, makes one LLM generation call, and then dies with
an uncaught `KeyError`, so a generation attempt is started after the
reference became unavailable. -/
theorem C5_counterexample :
    runCrashedKeyError (agentRun true true none dfRef1 "icici" envRun1) = true ∧
    runLlmCalls (agentRun true true none dfRef1 "icici" envRun1) = 1 ∧
    runSuccess (agentRun true true none dfRef1 "icici" envRun1) = false := by decide

/-- Claim C5, amended: if the reference CSV file is missing, the session
fails immediately before any attempt; but if the file exists and merely
cannot be parsed, the error is swallowed into an empty schema, the first
attempt starts (one LLM call is made), and the run then crashes with an
uncaught `KeyError` while building the code-generation prompt. -/
theorem C5_theorem :
    (∀ (schQ : Option Schema) (expected : DF) (bank : String) (env : Nat → AgentEnv),
      agentRun true false schQ expected bank env = .csvMissing) ∧
    (∀ (expected : DF) (bank : String) (env : Nat → AgentEnv),
      runCrashedKeyError (agentRun true true none expected bank env) = true ∧
      runLlmCalls (agentRun true true none expected bank env) = 1 ∧
      runAttempts (agentRun true true none expected bank env) = 1) := by
  exact ⟨fun _ _ _ _ => rfl, fun _ _ _ => ⟨rfl, rfl, rfl⟩⟩

/-- Claim C6, counterexample: against a reference whose `Credit Amt` cell is
absent, a candidate substituting `0` at that position is reported as a pass
by `agent.py`'s comparator, and the session succeeds on it — not the
value-mismatch the claim requires. -/
theorem C6_counterexample :
    dfRefNa.rows = [[.str "01-08-2024".data, .str "Salary Credit".data, .num 100, .na, .num 500]] ∧
    dfCandZero.rows = [[.str "01-08-2024".data, .str "Salary Credit".data, .num 100, .num 0, .num 500]] ∧
    agentCompare dfCandZero dfRefNa = .pass ∧
    runSuccess (agentRun true true (some schICICI) dfRefNa "icici" envRunZero) = true := by decide

/-- Claim C6, amended: only the attempt3 comparator (`df.equals`) has the
claimed sentinel discipline — an absent reference cell matches an absent
candidate cell and rejects a substituted `0` — while `agent.py`'s comparator
compares no cell values at all, so a candidate substituting `0` for an
absent reference value is reported as an exact match there. -/
theorem C6_theorem :
    cellEq Cell.na Cell.na = true ∧ cellEq (Cell.num 0) Cell.na = false ∧
    a3Compare dfCandZero dfRefNa = some false ∧
    a3Compare dfRefNa dfRefNa = some true ∧
    agentCompare dfCandZero dfRefNa = .pass := by decide

/-- Claim C7, counterexample: in the attempt3 variant the candidate is
executed in-process with no time bound, so a diverging candidate never
yields any outcome — no timeout Diagnosis is produced and the attempt never
completes, contradicting the claim that candidate execution is always
bounded by a wall-clock timeout. -/
theorem C7_counterexample :
    a3Attempt envDiverge = none ∧ envDiverge.exec = A3Exec.diverges := by decide

/-- Claim C7, amended: in `agent.py` candidate execution is bounded by the
30-second subprocess timeout — a timeout yields the timeout Diagnosis,
consumes exactly one attempt without flipping success, and the session
continues to the ceiling — but in the attempt3 variant execution is
in-process and unbounded, so a diverging candidate is awaited forever. -/
theorem C7_theorem :
    (∀ (sch : Schema) (expected : DF) (bank : String) (e : AgentEnv) (s : AgentSt),
      ∃ s', agentAttempt (some sch) expected bank
          { e with saveOk := true, exec := .timesOut } s = .ok s' ∧
        s'.attempts = s.attempts + 1 ∧ s'.success = s.success ∧
        s'.errors = s.errors ++ ["Test timeout (>30 seconds)"]) ∧
    runAttempts (agentRun true true (some schICICI) dfRef1 "icici" envRunTimeout) = 3 ∧
    runSuccess (agentRun true true (some schICICI) dfRef1 "icici" envRunTimeout) = false ∧
    runErrors (agentRun true true (some schICICI) dfRef1 "icici" envRunTimeout) =
      ["Test timeout (>30 seconds)", "Test timeout (>30 seconds)", "Test timeout (>30 seconds)"] ∧
    (∀ e : A3Env,
      a3Attempt
        { e with llmResp := goodA3Code, saveOk := true, compileOk := true, exec := A3Exec.diverges } =
        none) := by
  refine ⟨?_, by decide, by decide, by decide, fun e => rfl⟩
  intro sch expected bank e s
  unfold agentAttempt
  dsimp only
  split
  · next hsave => simp at hsave
  · unfold testParser
    dsimp only
    split
    · exact ⟨_, rfl, rfl, rfl, rfl⟩
    · exact ⟨_, rfl, rfl, rfl, rfl⟩

/-- Claim C8, counterexample: in `agent.py` an empty backend response does
not skip the attempt — it is sanitized into a non-empty stub, persisted, and
the Executor is invoked on it on all three attempts, each failure being
recorded as a runtime test failure rather than any generation-empty
Diagnosis. -/
theorem C8_counterexample :
    (envRunEmpty 0).llmCode = "" ∧
    runExecInvocations (agentRun true true (some schICICI) dfRef1 "icici" envRunEmpty) = 3 ∧
    runErrors (agentRun true true (some schICICI) dfRef1 "icici" envRunEmpty) =
      ["Test failed:\nImportError: cannot import name parse",
       "Test failed:\nImportError: cannot import name parse",
       "Test failed:\nImportError: cannot import name parse"] := by decide

/-- Claim C8, amended: only the attempt3 variant skips an empty generation —
nothing is persisted, loaded or executed, and the loop moves on (a message is
printed; no Diagnosis object is recorded) — whereas `agent.py` sanitizes the
empty response into the line `import pandas as pd`, persists it, and invokes
the Executor on it. -/
theorem C8_theorem :
    (∀ (saveOk compileOk : Bool) (exec : A3Exec) (expQ : Option DF),
      a3Attempt ⟨[], saveOk, compileOk, exec, expQ⟩ =
        some ⟨false, false, false, .emptySkip, []⟩) ∧
    cleanGeneratedCode "" = "import pandas as pd" ∧
    (∀ (sch : Schema) (expected : DF) (bank : String) (s : AgentSt),
      ∃ s', agentAttempt (some sch) expected bank
          ⟨"", true, true, .crashes "ImportError: cannot import name parse"⟩ s = .ok s' ∧
        s'.executorInvocations = s.executorInvocations + 1 ∧
        s'.currentCode = "import pandas as pd") := by
  refine ⟨fun _ _ _ _ => rfl, by decide, ?_⟩
  intro sch expected bank s
  unfold agentAttempt
  dsimp only
  split
  · next hsave => simp at hsave
  · unfold testParser
    dsimp only
    split
    · exact ⟨_, rfl, rfl, rfl⟩
    · exact ⟨_, rfl, rfl, rfl⟩

/-- Claim C9: for every input string (the empty string included),
`_clean_generated_code` returns a non-empty string containing
`import pandas as pd` — the import is prepended whenever absent — so the
sanitized candidate handed to persistence and testing is never empty. -/
theorem C9_theorem : ∀ code : String,
    importStr <:+: (cleanGeneratedCode code).data ∧ (cleanGeneratedCode code).data ≠ [] := by
  intro code
  have h := clean_aux
    (if pyIn fencePy code then (((code.splitOn fencePy).getD 1 "").splitOn fence).headD ""
     else if pyIn fence code then (((code.splitOn fence).getD 1 "").splitOn fence).headD ""
     else code)
  exact ⟨h, infix_ne_nil (by decide) h⟩

/-- Claim C10: the persisted `icici_parser.py` `parse` is not a function of
its PDF input alone — on the same extracted PDF lines, flipping only whether
the reference CSV marks the row as debit (`Credit Amt` absent) or credit
moves the extracted amount between the `Debit Amt` and `Credit Amt` columns,
so the two runs return different frames. -/
theorem C10_theorem :
    iciciParse refRowsDebit pdfLinesSample =
      [⟨"01-01-2024".data, "Pay".data, mkRat 11 2, 0, mkRat 15 2⟩] ∧
    iciciParse refRowsCredit pdfLinesSample =
      [⟨"01-01-2024".data, "Pay".data, 0, mkRat 11 2, mkRat 15 2⟩] ∧
    iciciParse refRowsDebit pdfLinesSample ≠ iciciParse refRowsCredit pdfLinesSample := by decide
